import Mathlib

/-!
Verification development for the FrictionLab simulation core.

The per-tick physics engine lives in `src/App.tsx` (the `loop` callback,
lines 90-217) together with the surface-registry adjustment
(`handleFrictionChange`, lines 69-81) and the data model in `src/types.ts`
and `src/constants.ts`.  We embed the tick state machine shallowly over ℚ:
every numeric field of the TypeScript model becomes a rational, machine
floats are modelled as exact rationals (the spec's numeric policy is
raw magnitudes with no epsilon), and the per-body tick body of
`prevStates.map` becomes the function `advance`.  Rendering-only fields
(`color`, `description`) are omitted.
-/

namespace FrictionLab

/-- Surface identity, from `SurfaceType` in src/types.ts. -/
inductive SurfaceType where
  | ICE
  | NORMAL
  | ROUGH
deriving DecidableEq, Repr

/-- Force mode, from `ForceMode` in src/types.ts:
`continuous | impulse | timed | distance`. -/
inductive ForceMode where
  | continuous
  | impulse
  | timed
  | distance
deriving DecidableEq, Repr

/-- Body status, from the `status` field of `SimulationState`
(src/types.ts): `static | moving | finished`.  The spec calls these
Stationary, Moving and Arrived. -/
inductive Status where
  | static
  | moving
  | finished
deriving DecidableEq, Repr

/-- `SurfaceConfig` from src/types.ts, numeric fields only
(`color` and `description` are rendering data with no effect on the
engine). `frictionRange` is the inclusive legal range of the kinetic
coefficient. -/
structure SurfaceConfig where
  type : SurfaceType
  staticFrictionCoeff : ℚ
  kineticFrictionCoeff : ℚ
  frictionRangeMin : ℚ
  frictionRangeMax : ℚ
deriving DecidableEq, Repr

/-- `SimulationState` from src/types.ts: one kinematic state per body. -/
structure SimulationState where
  id : SurfaceType
  position : ℚ
  velocity : ℚ
  acceleration : ℚ
  timeElapsed : ℚ
  isFinished : Bool
  status : Status
  frictionForce : ℚ
  currentAppliedForce : ℚ
deriving DecidableEq, Repr

/-- `SimulationParams` from src/types.ts. -/
structure SimulationParams where
  mass : ℚ
  distance : ℚ
  appliedForce : ℚ
  forceMode : ForceMode
  forceDuration : ℚ
  forceDistanceLimit : ℚ
deriving DecidableEq, Repr

/-- `GRAVITY = 9.81` from src/constants.ts. -/
def GRAVITY : ℚ := 981 / 100

/-- `DT = 0.016` from src/App.tsx line 11. -/
def DT : ℚ := 16 / 1000

/-- `SPEED_MULTIPLIER = 5` from src/App.tsx line 12. -/
def SPEED_MULTIPLIER : ℚ := 5

/-- `IMPULSE_DURATION = 0.5` from src/App.tsx line 13. -/
def IMPULSE_DURATION : ℚ := 1 / 2

/-- JavaScript `parseFloat(x.toFixed(2))`: round to two decimal places. -/
def round2 (q : ℚ) : ℚ := (round (q * 100) : ℤ) / 100

/-- `handleFrictionChange` from src/App.tsx lines 69-81: set the kinetic
coefficient of the matching surface and derive the static coefficient as
`parseFloat((newKinetic + 0.1).toFixed(2))`; other surfaces unchanged. -/
def handleFrictionChange (configs : List SurfaceConfig) (t : SurfaceType)
    (newKinetic : ℚ) : List SurfaceConfig :=
  configs.map fun s =>
    if s.type = t then
      { s with
        kineticFrictionCoeff := newKinetic
        staticFrictionCoeff := round2 (newKinetic + 1 / 10) }
    else s

/-- The force-mode switch from src/App.tsx lines 109-123: is the applied
force active this tick? -/
def isForceActive (params : SimulationParams) (state : SimulationState) : Bool :=
  match params.forceMode with
  | ForceMode.continuous => true
  | ForceMode.impulse => decide (state.timeElapsed < IMPULSE_DURATION)
  | ForceMode.timed => decide (state.timeElapsed < params.forceDuration)
  | ForceMode.distance => decide (state.position < params.forceDistanceLimit)

/-- `pushForce` from src/App.tsx line 125:
`isForceActive ? params.appliedForce : 0`. -/
def effectiveForce (params : SimulationParams) (state : SimulationState) : ℚ :=
  if isForceActive params state then params.appliedForce else 0

/-- The per-body tick from src/App.tsx lines 99-201 (the body of
`prevStates.map` inside `loop`).  `simStep` is the tick's time increment
(`deltaTime * SPEED_MULTIPLIER` in the driver).  The surface config is
passed directly, standing for the `surfaceConfigs.find` lookup on the
body's id. -/
def advance (params : SimulationParams) (surface : SurfaceConfig)
    (simStep : ℚ) (state : SimulationState) : SimulationState :=
  if state.isFinished then state else
  let normalForce := params.mass * GRAVITY
  let maxStaticFriction := surface.staticFrictionCoeff * normalForce
  let kineticFriction := surface.kineticFrictionCoeff * normalForce
  let pushForce := effectiveForce params state
  match state.status with
  | Status.static =>
      if maxStaticFriction < pushForce then
        -- breakaway: newStatus='moving', friction = kinetic; the
        -- kinematic variables keep their initialised values
        { state with
          status := Status.moving
          acceleration := 0
          isFinished := false
          frictionForce := kineticFriction
          currentAppliedForce := pushForce }
      else
        -- stuck: friction resists equally, 0 when the push is 0
        { state with
          status := Status.static
          acceleration := 0
          isFinished := false
          frictionForce := if pushForce = 0 then 0 else pushForce
          currentAppliedForce := pushForce }
  | Status.moving =>
      let newAcc := (pushForce - kineticFriction) / params.mass
      let v1 := state.velocity + newAcc * simStep
      let stopped : Bool := decide (v1 ≤ 0 ∧ pushForce ≤ kineticFriction)
      let newVel := if stopped then 0 else v1
      let newAcc2 := if stopped then 0 else newAcc
      let newPos := state.position + newVel * simStep
      let newTime := state.timeElapsed + simStep
      if params.distance ≤ newPos then
        { state with
          status := Status.finished
          acceleration := newAcc2
          velocity := newVel
          position := params.distance
          timeElapsed := newTime
          isFinished := true
          frictionForce := kineticFriction
          currentAppliedForce := pushForce }
      else
        { state with
          status := if stopped then Status.finished else Status.moving
          acceleration := newAcc2
          velocity := newVel
          position := newPos
          timeElapsed := newTime
          isFinished := stopped
          frictionForce := kineticFriction
          currentAppliedForce := pushForce }
  | Status.finished =>
      { state with
        status := Status.finished
        acceleration := 0
        isFinished := true
        frictionForce := 0
        currentAppliedForce := pushForce }

/-- Initial body state from `resetSimulation`, src/App.tsx lines 34-44. -/
def initialState (t : SurfaceType) (params : SimulationParams) : SimulationState :=
  { id := t
    position := 0
    velocity := 0
    acceleration := 0
    timeElapsed := 0
    isFinished := false
    status := Status.static
    frictionForce := 0
    currentAppliedForce := params.appliedForce }

/-- `currentlyMoving` from src/App.tsx line 205:
`newStates.some(s => s.status === 'moving')`. -/
def currentlyMoving (states : List SimulationState) : Bool :=
  states.any fun s => decide (s.status = Status.moving)

/-- The run-finished flag: src/App.tsx lines 207-209 set `isFinished`
(run level) exactly when `!currentlyMoving` holds after a tick. -/
def runFinished (states : List SimulationState) : Bool :=
  ! currentlyMoving states

/-- One tick over all bodies, pairing each state with its surface config
(the `prevStates.map` of src/App.tsx line 99 combined with the
`surfaceConfigs.find` lookup). -/
def advanceAll (params : SimulationParams) (simStep : ℚ)
    (bodies : List (SurfaceConfig × SimulationState)) :
    List (SurfaceConfig × SimulationState) :=
  bodies.map fun b => (b.1, advance params b.1 simStep b.2)

/-! ### Concrete sample data

`normalSurface` and `iceSurface` are the `Floor` and `Ice` entries of
`SURFACES` in src/constants.ts; the parameter records instantiate
`INITIAL_PARAMS` (mass 10 kg, distance 500 m, applied force as noted).
The tick increment 2/25 is `DT * SPEED_MULTIPLIER = 0.016 * 5 = 0.08` s. -/

def normalSurface : SurfaceConfig :=
  { type := SurfaceType.NORMAL
    staticFrictionCoeff := 4 / 10
    kineticFrictionCoeff := 3 / 10
    frictionRangeMin := 3 / 10
    frictionRangeMax := 6 / 10 }

def iceSurface : SurfaceConfig :=
  { type := SurfaceType.ICE
    staticFrictionCoeff := 2 / 10
    kineticFrictionCoeff := 1 / 10
    frictionRangeMin := 1 / 10
    frictionRangeMax := 3 / 10 }

/-- Continuous push of 30 N: below the Floor surface's static ceiling
39.24 N, so the body stays stuck. -/
def params30 : SimulationParams :=
  { mass := 10, distance := 500, appliedForce := 30
    forceMode := ForceMode.continuous, forceDuration := 5
    forceDistanceLimit := 100 }

/-- Continuous push of 150 N: well above the static ceiling. -/
def paramsC : SimulationParams :=
  { mass := 10, distance := 500, appliedForce := 150
    forceMode := ForceMode.continuous, forceDuration := 5
    forceDistanceLimit := 100 }

/-- Timed push of 150 N for 1 s. -/
def paramsT : SimulationParams :=
  { mass := 10, distance := 500, appliedForce := 150
    forceMode := ForceMode.timed, forceDuration := 1
    forceDistanceLimit := 100 }

/-- A body coasting at 0.04 m/s after its timed push expired: kinetic
friction (29.43 N) decelerates it below zero velocity this tick. -/
def movingSample : SimulationState :=
  { id := SurfaceType.NORMAL
    position := 100, velocity := 1 / 25, acceleration := 0
    timeElapsed := 3, isFinished := false, status := Status.moving
    frictionForce := 2943 / 100, currentAppliedForce := 0 }

/-- A body at 499 m moving at 100 m/s under the continuous 150 N push:
it crosses the 500 m target on the next tick. -/
def nearTarget : SimulationState :=
  { id := SurfaceType.NORMAL
    position := 499, velocity := 100, acceleration := 0
    timeElapsed := 8, isFinished := false, status := Status.moving
    frictionForce := 2943 / 100, currentAppliedForce := 150 }

end FrictionLab

namespace FrictionLab

/-- A body that has already arrived, as produced by the engine itself:
the result of ticking `nearTarget` across the 500 m line. -/
def finishedSample : SimulationState :=
  advance paramsC normalSurface (2 / 25) nearTarget

/-! ### Helper lemmas -/

/-- Arithmetic core of the velocity clamp: if the discrete velocity
update is not snapped to zero, it is still nonnegative (a negative
update forces a positive net force, which only raises the velocity). -/
theorem v1_lower (vel push kin mass d : ℚ) (hm : 0 < mass) (hd : 0 ≤ d) (hv : 0 ≤ vel)
    (hns : ¬(vel + (push - kin) / mass * d ≤ 0 ∧ push ≤ kin)) :
    0 ≤ vel + (push - kin) / mass * d := by
  rw [not_and_or, not_le, not_le] at hns
  rcases hns with h1 | h2
  · linarith
  · have hacc : 0 ≤ (push - kin) / mass := le_of_lt (div_pos (by linarith) hm)
    nlinarith [mul_nonneg hacc hd]

/-- One tick preserves nonnegativity of the velocity field. -/
theorem velocity_nonneg_step (p : SimulationParams) (surf : SurfaceConfig) (d : ℚ)
    (s : SimulationState) (hm : 0 < p.mass) (hd : 0 ≤ d) (hv : 0 ≤ s.velocity) :
    0 ≤ (advance p surf d s).velocity := by
  by_cases hf : s.isFinished = true
  · simpa [advance, hf] using hv
  · rw [Bool.not_eq_true] at hf
    cases hs : s.status
    · simp only [advance, hf, hs]
      norm_num
      split <;> simpa using hv
    · simp only [advance, hf, hs]
      norm_num
      split
      · split <;> simp
      · next hns =>
        have h0 : 0 ≤ s.velocity +
            (effectiveForce p s - surf.kineticFrictionCoeff * (p.mass * GRAVITY)) / p.mass * d :=
          v1_lower s.velocity (effectiveForce p s)
            (surf.kineticFrictionCoeff * (p.mass * GRAVITY)) p.mass d hm hd hv hns
        split <;> simpa using h0
    · simpa [advance, hf, hs] using hv

/-! ### C1 — run-level completion -/

/-- C1, counterexample.  Ticking a single body pushed with 30 N on the
Floor surface (static ceiling 39.24 N) leaves it Stationary, yet the
run-finished condition of the loop (no body Moving) already holds: the
engine reports the run finished although not every body is Arrived. -/
theorem run_finished_with_stationary_body_cx :
    runFinished [advance params30 normalSurface (2 / 25)
      (initialState SurfaceType.NORMAL params30)] = true ∧
    (advance params30 normalSurface (2 / 25)
      (initialState SurfaceType.NORMAL params30)).status ≠ Status.finished := by
  norm_num [advance, runFinished, currentlyMoving, initialState, params30, normalSurface,
    effectiveForce, isForceActive, GRAVITY]
  exact ⟨by decide, by decide⟩

/-- C1, amended.  The run-finished flag is true exactly when no body's
status is Moving — every body is either Arrived or (stuck) Stationary —
not when every body is Arrived. -/
theorem runFinished_iff_no_moving (states : List SimulationState) :
    runFinished states = true ↔ ∀ s ∈ states, s.status ≠ Status.moving := by
  simp [runFinished, currentlyMoving]

/-- C1, witness: the amended characterisation at a concrete one-body list. -/
theorem runFinished_iff_no_moving_witness :
    runFinished [initialState SurfaceType.NORMAL params30] = true ↔
    ∀ s ∈ [initialState SurfaceType.NORMAL params30], s.status ≠ Status.moving :=
  runFinished_iff_no_moving [initialState SurfaceType.NORMAL params30]

/-! ### C2 — the halting tick -/

/-- C2, counterexample.  A body coasting at 0.04 m/s with its push
expired is snapped to rest on this tick (velocity and acceleration 0,
status Arrived) and its position is unchanged, but `timeElapsed`
still advances by the tick increment: 3 s becomes 3.08 s, refuting
the claim that elapsed time keeps its pre-tick value. -/
theorem halting_tick_time_advances_cx :
    (advance paramsT normalSurface (2 / 25) movingSample).status = Status.finished ∧
    (advance paramsT normalSurface (2 / 25) movingSample).velocity = 0 ∧
    (advance paramsT normalSurface (2 / 25) movingSample).position = movingSample.position ∧
    (advance paramsT normalSurface (2 / 25) movingSample).timeElapsed ≠ movingSample.timeElapsed := by
  norm_num [advance, paramsT, normalSurface, movingSample, effectiveForce, isForceActive,
    GRAVITY, IMPULSE_DURATION]

/-- C2, amended.  On a tick where a Moving body's updated velocity is
≤ 0 and the effective applied force is ≤ the kinetic friction, the
engine snaps velocity and acceleration to 0 and sets status to Arrived;
position keeps the value accumulated before the tick, but elapsed time
advances by the tick increment `d` (the `newTime += simStep` line runs
unconditionally in the Moving branch). -/
theorem halting_tick_snaps (p : SimulationParams) (surf : SurfaceConfig) (d : ℚ)
    (s : SimulationState) (hst : s.status = Status.moving) (hf : s.isFinished = false)
    (hstop : s.velocity +
      (effectiveForce p s - surf.kineticFrictionCoeff * (p.mass * GRAVITY)) / p.mass * d ≤ 0)
    (hpush : effectiveForce p s ≤ surf.kineticFrictionCoeff * (p.mass * GRAVITY))
    (hpos : s.position < p.distance) :
    (advance p surf d s).velocity = 0 ∧
    (advance p surf d s).acceleration = 0 ∧
    (advance p surf d s).status = Status.finished ∧
    (advance p surf d s).position = s.position ∧
    (advance p surf d s).timeElapsed = s.timeElapsed + d := by
  simp [advance, hst, hf, hstop, hpush, not_le.mpr hpos]

/-- C2, witness: the amended halting-tick behaviour at the concrete
coasting body `movingSample`. -/
theorem halting_tick_snaps_witness :
    (advance paramsT normalSurface (2 / 25) movingSample).velocity = 0 ∧
    (advance paramsT normalSurface (2 / 25) movingSample).acceleration = 0 ∧
    (advance paramsT normalSurface (2 / 25) movingSample).status = Status.finished ∧
    (advance paramsT normalSurface (2 / 25) movingSample).position = movingSample.position ∧
    (advance paramsT normalSurface (2 / 25) movingSample).timeElapsed =
      movingSample.timeElapsed + 2 / 25 :=
  halting_tick_snaps paramsT normalSurface (2 / 25) movingSample rfl rfl
    (by norm_num [effectiveForce, isForceActive, paramsT, normalSurface, movingSample, GRAVITY])
    (by norm_num [effectiveForce, isForceActive, paramsT, normalSurface, movingSample, GRAVITY])
    (by norm_num [movingSample, paramsT])

end FrictionLab

namespace FrictionLab

/-! ### C3 — ticks after arrival -/

/-- C3, counterexample.  `finishedSample` is produced by the engine
(the body crosses the 500 m target), so it is Arrived; a further tick
leaves every field unchanged — including the friction force, which is
still the kinetic friction 29.43 N of the arriving tick, not 0. -/
theorem arrived_friction_nonzero_cx :
    finishedSample.isFinished = true ∧
    finishedSample.status = Status.finished ∧
    advance paramsC normalSurface (2 / 25) finishedSample = finishedSample ∧
    (advance paramsC normalSurface (2 / 25) finishedSample).frictionForce ≠ 0 := by
  norm_num [finishedSample, advance, paramsC, normalSurface, nearTarget,
    effectiveForce, isForceActive, GRAVITY]

/-- C3, amended.  Once the body's finished flag is set (which the
engine does exactly when status becomes Arrived), every subsequent tick
returns the state completely unchanged; in particular the reported
friction force stays at whatever the arriving tick recorded (the
kinetic friction), not 0. -/
theorem arrived_tick_noop (p : SimulationParams) (surf : SurfaceConfig) (d : ℚ)
    (s : SimulationState) (hf : s.isFinished = true) :
    advance p surf d s = s := by
  simp [advance, hf]

/-- C3, witness: a tick on the concrete arrived body is the identity. -/
theorem arrived_tick_noop_witness :
    advance paramsC normalSurface (2 / 25) finishedSample = finishedSample :=
  arrived_tick_noop paramsC normalSurface (2 / 25) finishedSample
    (by norm_num [finishedSample, advance, paramsC, normalSurface, nearTarget,
      effectiveForce, isForceActive, GRAVITY])

/-! ### C4 — kinetic-coefficient adjustment -/

/-- C4, counterexample.  Adjusting the Ice surface's kinetic
coefficient to 0.9, far outside its configured range [0.1, 0.3], does
not fail and does not leave the registry unchanged: the operation
stores μk = 0.9 and derives μs = 1.0. -/
theorem adjust_out_of_range_mutates_cx :
    iceSurface.frictionRangeMax < 9 / 10 ∧
    handleFrictionChange [iceSurface] SurfaceType.ICE (9 / 10) ≠ [iceSurface] ∧
    (handleFrictionChange [iceSurface] SurfaceType.ICE (9 / 10)).map
      SurfaceConfig.kineticFrictionCoeff = [9 / 10] ∧
    (handleFrictionChange [iceSurface] SurfaceType.ICE (9 / 10)).map
      SurfaceConfig.staticFrictionCoeff = [1] := by
  norm_num [handleFrictionChange, iceSurface, round2]

/-- C4, amended.  The adjustment operation performs no range
validation: for every new value, in range or not, it sets the matching
surface's μk to the value and μs to round(μk + 0.1) at 2 decimals
(range enforcement exists only in the UI slider, not in the
operation). -/
theorem adjust_sets_unconditionally (configs : List SurfaceConfig) (t : SurfaceType)
    (v : ℚ) (i : ℕ) (hi : i < configs.length)
    (ht : (configs.get ⟨i, hi⟩).type = t) :
    ∃ hj : i < (handleFrictionChange configs t v).length,
      ((handleFrictionChange configs t v).get ⟨i, hj⟩).kineticFrictionCoeff = v ∧
      ((handleFrictionChange configs t v).get ⟨i, hj⟩).staticFrictionCoeff =
        round2 (v + 1 / 10) := by
  have hlen : (handleFrictionChange configs t v).length = configs.length := by
    simp [handleFrictionChange]
  simp only [List.get_eq_getElem] at ht
  refine ⟨hlen ▸ hi, ?_, ?_⟩ <;>
    simp [handleFrictionChange, List.get_eq_getElem, List.getElem_map, ht]

/-- C4, witness: the unconditional update at the concrete out-of-range
input 0.9 on the Ice surface. -/
theorem adjust_sets_unconditionally_witness :
    ∃ hj : 0 < (handleFrictionChange [iceSurface] SurfaceType.ICE (9 / 10)).length,
      ((handleFrictionChange [iceSurface] SurfaceType.ICE (9 / 10)).get
        ⟨0, hj⟩).kineticFrictionCoeff = 9 / 10 ∧
      ((handleFrictionChange [iceSurface] SurfaceType.ICE (9 / 10)).get
        ⟨0, hj⟩).staticFrictionCoeff = round2 (9 / 10 + 1 / 10) :=
  adjust_sets_unconditionally [iceSurface] SurfaceType.ICE (9 / 10) 0 (by simp) rfl

/-! ### C5 — strict breakaway threshold -/

/-- C5, confirmed.  A Stationary body transitions to Moving on a tick
exactly when the effective applied force strictly exceeds
μs × mass × g; equality leaves it Stationary. -/
theorem breakaway_iff_strict_exceeds (p : SimulationParams) (surf : SurfaceConfig) (d : ℚ)
    (s : SimulationState) (hst : s.status = Status.static) (hf : s.isFinished = false) :
    (advance p surf d s).status = Status.moving ↔
      surf.staticFrictionCoeff * (p.mass * GRAVITY) < effectiveForce p s := by
  simp only [advance, hst, hf]
  norm_num
  split
  · next h => simp [h]
  · next h => simp [h]

/-- C5, witness: the equivalence instantiated at the initial Floor body
under the continuous 150 N push. -/
theorem breakaway_iff_strict_exceeds_witness :
    (advance paramsC normalSurface (2 / 25)
      (initialState SurfaceType.NORMAL paramsC)).status = Status.moving ↔
    normalSurface.staticFrictionCoeff * (paramsC.mass * GRAVITY) <
      effectiveForce paramsC (initialState SurfaceType.NORMAL paramsC) :=
  breakaway_iff_strict_exceeds paramsC normalSurface (2 / 25)
    (initialState SurfaceType.NORMAL paramsC) rfl rfl

end FrictionLab

namespace FrictionLab

/-! ### C6 — velocity never negative -/

/-- C6, confirmed.  Along any tick sequence from the initial state —
any per-tick surface configuration and any nonnegative tick increments
— the velocity at every tick boundary is nonnegative (shown at the
final boundary of an arbitrary sequence, hence at every boundary, since
every prefix is itself such a sequence).  The positive-mass hypothesis
reflects the documented parameter bound mass ∈ [1, 1000]. -/
theorem velocity_never_negative (p : SimulationParams) (t : SurfaceType)
    (hm : 0 < p.mass) (ticks : List (SurfaceConfig × ℚ))
    (hd : ∀ x ∈ ticks, 0 ≤ x.2) :
    0 ≤ (ticks.foldl (fun st x => advance p x.1 x.2 st) (initialState t p)).velocity := by
  have main : ∀ (l : List (SurfaceConfig × ℚ)) (st : SimulationState),
      (∀ x ∈ l, 0 ≤ x.2) → 0 ≤ st.velocity →
      0 ≤ (l.foldl (fun st x => advance p x.1 x.2 st) st).velocity := by
    intro l
    induction l with
    | nil => intro st _ hv; simpa using hv
    | cons a tl ih =>
        intro st hl hv
        simp only [List.foldl_cons]
        exact ih _ (fun x hx => hl x (List.mem_cons_of_mem a hx))
          (velocity_nonneg_step p a.1 a.2 st hm (hl a (List.mem_cons_self a tl)) hv)
  exact main ticks _ hd (by norm_num [initialState])

/-- C6, witness: velocity after two concrete ticks of the 150 N
continuous run is nonnegative. -/
theorem velocity_never_negative_witness :
    0 ≤ ([(normalSurface, 2 / 25), (normalSurface, 2 / 25)].foldl
      (fun st x => advance paramsC x.1 x.2 st)
      (initialState SurfaceType.NORMAL paramsC)).velocity :=
  velocity_never_negative paramsC SurfaceType.NORMAL (by norm_num [paramsC])
    [(normalSurface, 2 / 25), (normalSurface, 2 / 25)]
    (by
      intro x hx
      rw [List.mem_cons, List.mem_singleton] at hx
      rcases hx with h | h <;> subst h <;> norm_num)

/-! ### C7 — position monotone and clamped to the target -/

/-- C7, confirmed.  Under the run invariants (nonnegative velocity,
position within the target), a tick never decreases the position, never
takes it past the target distance, and either clamps it to exactly the
target, integrates it by velocity × dt, or leaves it unchanged. -/
theorem position_monotone_bounded (p : SimulationParams) (surf : SurfaceConfig) (d : ℚ)
    (s : SimulationState) (hm : 0 < p.mass) (hd : 0 ≤ d)
    (hv : 0 ≤ s.velocity) (hp : s.position ≤ p.distance) :
    s.position ≤ (advance p surf d s).position ∧
    (advance p surf d s).position ≤ p.distance ∧
    ((advance p surf d s).position = p.distance ∨
     (advance p surf d s).position = s.position + (advance p surf d s).velocity * d ∨
     (advance p surf d s).position = s.position) := by
  by_cases hf : s.isFinished = true
  · simp [advance, hf, hp]
  · rw [Bool.not_eq_true] at hf
    cases hs : s.status
    · simp [advance, hf, hs]
      split <;> simp [hp]
    · simp only [advance, hf, hs]
      norm_num
      split
      · split
        · next hdist =>
          exact ⟨hp, le_refl _, Or.inl rfl⟩
        · next hdist =>
          rw [not_le] at hdist
          exact ⟨by linarith, le_of_lt hdist, Or.inr (Or.inr (by ring))⟩
      · next hns =>
        have h0 : 0 ≤ s.velocity +
            (effectiveForce p s - surf.kineticFrictionCoeff * (p.mass * GRAVITY)) / p.mass * d :=
          v1_lower s.velocity (effectiveForce p s)
            (surf.kineticFrictionCoeff * (p.mass * GRAVITY)) p.mass d hm hd hv hns
        have hvd : 0 ≤ (s.velocity +
            (effectiveForce p s - surf.kineticFrictionCoeff * (p.mass * GRAVITY)) / p.mass * d) * d :=
          mul_nonneg h0 hd
        split
        · next hdist =>
          exact ⟨hp, le_refl _, Or.inl rfl⟩
        · next hdist =>
          rw [not_le] at hdist
          exact ⟨by linarith, le_of_lt hdist, Or.inr (Or.inl rfl)⟩
    · simp [advance, hf, hs, hp]

/-- C7, witness: the position bounds at the concrete coasting body
`movingSample`. -/
theorem position_monotone_bounded_witness :
    movingSample.position ≤ (advance paramsT normalSurface (2 / 25) movingSample).position ∧
    (advance paramsT normalSurface (2 / 25) movingSample).position ≤ paramsT.distance ∧
    ((advance paramsT normalSurface (2 / 25) movingSample).position = paramsT.distance ∨
     (advance paramsT normalSurface (2 / 25) movingSample).position =
       movingSample.position +
         (advance paramsT normalSurface (2 / 25) movingSample).velocity * (2 / 25) ∨
     (advance paramsT normalSurface (2 / 25) movingSample).position =
       movingSample.position) :=
  position_monotone_bounded paramsT normalSurface (2 / 25) movingSample
    (by norm_num [paramsT]) (by norm_num)
    (by norm_num [movingSample]) (by norm_num [movingSample, paramsT])

/-! ### C8 — time is frozen while Stationary -/

/-- C8, confirmed.  A tick on a Stationary body leaves both clocks of
the force-mode policy untouched: elapsed time and position are returned
unchanged (so a body that never starts moving never exhausts a timed or
distance-limited push). -/
theorem stationary_time_frozen (p : SimulationParams) (surf : SurfaceConfig) (d : ℚ)
    (s : SimulationState) (hst : s.status = Status.static) (hf : s.isFinished = false) :
    (advance p surf d s).timeElapsed = s.timeElapsed ∧
    (advance p surf d s).position = s.position := by
  simp [advance, hst, hf]
  split <;> simp

/-- C8, witness: the frozen clocks at the initial stuck body of the
30 N run. -/
theorem stationary_time_frozen_witness :
    (advance params30 normalSurface (2 / 25)
      (initialState SurfaceType.NORMAL params30)).timeElapsed =
      (initialState SurfaceType.NORMAL params30).timeElapsed ∧
    (advance params30 normalSurface (2 / 25)
      (initialState SurfaceType.NORMAL params30)).position =
      (initialState SurfaceType.NORMAL params30).position :=
  stationary_time_frozen params30 normalSurface (2 / 25)
    (initialState SurfaceType.NORMAL params30) rfl rfl

end FrictionLab

namespace FrictionLab

/-! ### C9 — force-mode policy -/

/-- C9, confirmed.  On a tick of a non-Arrived body the applied force
recorded for the tick is the effective applied force: the configured
magnitude when the mode's active condition holds and 0 otherwise, the
condition being continuous → always; impulse → elapsed < 0.5 s;
timed → elapsed < configured duration; distance-limited → position <
configured distance limit. -/
theorem effective_force_policy (p : SimulationParams) (surf : SurfaceConfig) (d : ℚ)
    (s : SimulationState) (hf : s.isFinished = false) :
    (advance p surf d s).currentAppliedForce = effectiveForce p s ∧
    (isForceActive p s = true ∧ effectiveForce p s = p.appliedForce ∨
     isForceActive p s = false ∧ effectiveForce p s = 0) ∧
    (isForceActive p s = true ↔
      p.forceMode = ForceMode.continuous ∨
      p.forceMode = ForceMode.impulse ∧ s.timeElapsed < IMPULSE_DURATION ∨
      p.forceMode = ForceMode.timed ∧ s.timeElapsed < p.forceDuration ∨
      p.forceMode = ForceMode.distance ∧ s.position < p.forceDistanceLimit) := by
  refine ⟨?_, ?_, ?_⟩
  · simp only [advance, hf]
    norm_num
    cases hs : s.status
    · simp [hs]; split <;> simp
    · simp [hs]; split <;> (try split) <;> simp
    · simp [hs]
  · by_cases h : isForceActive p s = true
    · exact Or.inl ⟨h, by simp [effectiveForce, h]⟩
    · refine Or.inr ⟨by simpa using h, by simp [effectiveForce, h]⟩
  · cases hm : p.forceMode <;> simp [isForceActive, hm]

/-- C9, witness: the policy evaluation at the concrete coasting body of
the timed run (push expired, so the effective force is 0). -/
theorem effective_force_policy_witness :
    (advance paramsT normalSurface (2 / 25) movingSample).currentAppliedForce =
      effectiveForce paramsT movingSample ∧
    (isForceActive paramsT movingSample = true ∧
       effectiveForce paramsT movingSample = paramsT.appliedForce ∨
     isForceActive paramsT movingSample = false ∧
       effectiveForce paramsT movingSample = 0) ∧
    (isForceActive paramsT movingSample = true ↔
      paramsT.forceMode = ForceMode.continuous ∨
      paramsT.forceMode = ForceMode.impulse ∧
        movingSample.timeElapsed < IMPULSE_DURATION ∨
      paramsT.forceMode = ForceMode.timed ∧
        movingSample.timeElapsed < paramsT.forceDuration ∨
      paramsT.forceMode = ForceMode.distance ∧
        movingSample.position < paramsT.forceDistanceLimit) :=
  effective_force_policy paramsT normalSurface (2 / 25) movingSample rfl

/-! ### C10 — the breakaway tick itself -/

/-- C10, confirmed.  On the tick on which a Stationary body breaks
away (effective applied force strictly above the static ceiling), no
kinematic integration happens: position, velocity and elapsed time are
returned unchanged, the acceleration is reported as 0, the friction
force is set to the kinetic friction, and the status becomes Moving. -/
theorem breakaway_tick_no_integration (p : SimulationParams) (surf : SurfaceConfig)
    (d : ℚ) (s : SimulationState) (hst : s.status = Status.static)
    (hf : s.isFinished = false)
    (hbk : surf.staticFrictionCoeff * (p.mass * GRAVITY) < effectiveForce p s) :
    (advance p surf d s).status = Status.moving ∧
    (advance p surf d s).position = s.position ∧
    (advance p surf d s).velocity = s.velocity ∧
    (advance p surf d s).timeElapsed = s.timeElapsed ∧
    (advance p surf d s).acceleration = 0 ∧
    (advance p surf d s).frictionForce = surf.kineticFrictionCoeff * (p.mass * GRAVITY) ∧
    (advance p surf d s).currentAppliedForce = effectiveForce p s := by
  simp [advance, hst, hf, hbk]

/-- C10, witness: the breakaway tick of the 150 N continuous run on the
Floor surface (static ceiling 39.24 N < 150 N). -/
theorem breakaway_tick_no_integration_witness :
    (advance paramsC normalSurface (2 / 25)
      (initialState SurfaceType.NORMAL paramsC)).status = Status.moving ∧
    (advance paramsC normalSurface (2 / 25)
      (initialState SurfaceType.NORMAL paramsC)).position =
      (initialState SurfaceType.NORMAL paramsC).position ∧
    (advance paramsC normalSurface (2 / 25)
      (initialState SurfaceType.NORMAL paramsC)).velocity =
      (initialState SurfaceType.NORMAL paramsC).velocity ∧
    (advance paramsC normalSurface (2 / 25)
      (initialState SurfaceType.NORMAL paramsC)).timeElapsed =
      (initialState SurfaceType.NORMAL paramsC).timeElapsed ∧
    (advance paramsC normalSurface (2 / 25)
      (initialState SurfaceType.NORMAL paramsC)).acceleration = 0 ∧
    (advance paramsC normalSurface (2 / 25)
      (initialState SurfaceType.NORMAL paramsC)).frictionForce =
      normalSurface.kineticFrictionCoeff * (paramsC.mass * GRAVITY) ∧
    (advance paramsC normalSurface (2 / 25)
      (initialState SurfaceType.NORMAL paramsC)).currentAppliedForce =
      effectiveForce paramsC (initialState SurfaceType.NORMAL paramsC) :=
  breakaway_tick_no_integration paramsC normalSurface (2 / 25)
    (initialState SurfaceType.NORMAL paramsC) rfl rfl
    (by norm_num [effectiveForce, isForceActive, paramsC, normalSurface,
      initialState, GRAVITY])

end FrictionLab
